import Mathlib

/-!
# Verification of the hysteria core tunnel server and SOCKS5 front-end

Shallow embedding of `pkg/core/server.go` and `pkg/socks5/server.go`.
External capabilities (stdlib networking, the ACL engine, the auth
callback, stream I/O) are passed in as explicit environment records; the
control flow of each Go function is transcribed into a pure Lean function
that returns the trace of externally visible events together with its
result.
-/

namespace Core

/-- `transmissionRate` from the wire protocol: two uint64 byte-per-second
fields. Modelled as `Nat` (no arithmetic is performed on them, only
comparisons, so overflow cannot arise). -/
structure TransmissionRate where
  sendBPS : Nat
  recvBPS : Nat
deriving DecidableEq, Repr

/-- `clientHello`: auth token bytes plus the requested rates. -/
structure ClientHello where
  auth : List Nat
  rate : TransmissionRate
deriving DecidableEq, Repr

/-- `serverHello`: accept flag, clamped rates, message. -/
structure ServerHello where
  ok : Bool
  rate : TransmissionRate
  message : String
deriving DecidableEq, Repr

/-- Externally visible events of `handleControlStream` /
`handleClient`. -/
inductive CtrlEvent where
  /-- the `authFunc` capability was invoked with token and clamped rates -/
  | authCall (auth : List Nat) (sSend sRecv : Nat)
  /-- a `serverHello` was packed onto the control stream -/
  | writeServerHello (sh : ServerHello)
  /-- `SetCongestionControl` was invoked with this send rate -/
  | setCongestion (bps : Nat)
deriving DecidableEq, Repr

/-- Server configuration relevant to the control handshake:
`sendBPS` / `recvBPS` ceilings (0 = unbounded) and whether a congestion
factory was supplied. -/
structure ServerCfg where
  sendBPS : Nat
  recvBPS : Nat
  congestionFactory : Bool
deriving DecidableEq, Repr

/-- Environment of one run of `handleControlStream`: outcome of
`struc.Unpack` on the control stream (`none` = read/parse error), the
auth capability, and whether `struc.Pack` of the server hello
succeeds. -/
structure CtrlEnv where
  unpackHello : Option ClientHello
  authResult : List Nat → Nat → Nat → Bool × String
  packHelloOK : Bool

/-- Result of `handleControlStream`: `none` models a non-nil `error`
return; `some (auth, ok)` models `(auth, ok, nil)`. -/
def CtrlResult := Option (List Nat × Bool)

/-- Embedding of `(*Server).handleControlStream`
(`pkg/core/server.go:109-145`).  Returns the event trace and the
result. -/
def handleControlStream (s : ServerCfg) (env : CtrlEnv) :
    List CtrlEvent × Option (List Nat × Bool) :=
  match env.unpackHello with
  | none => ([], none)
  | some ch =>
    if ch.rate.sendBPS = 0 ∨ ch.rate.recvBPS = 0 then
      ([], none)
    else
      -- serverSendBPS, serverRecvBPS := ch.Rate.RecvBPS, ch.Rate.SendBPS
      let serverSendBPS :=
        if s.sendBPS > 0 ∧ ch.rate.recvBPS > s.sendBPS then s.sendBPS
        else ch.rate.recvBPS
      let serverRecvBPS :=
        if s.recvBPS > 0 ∧ ch.rate.sendBPS > s.recvBPS then s.recvBPS
        else ch.rate.sendBPS
      let res := env.authResult ch.auth serverSendBPS serverRecvBPS
      let tr := [CtrlEvent.authCall ch.auth serverSendBPS serverRecvBPS,
                 CtrlEvent.writeServerHello
                   ⟨res.1, ⟨serverSendBPS, serverRecvBPS⟩, res.2⟩]
      if env.packHelloOK then
        if res.1 ∧ s.congestionFactory then
          (tr ++ [CtrlEvent.setCongestion serverSendBPS],
           some (ch.auth, res.1))
        else (tr, some (ch.auth, res.1))
      else (tr, none)

/-- The close reasons used by `handleClient`
(`closeErrorCodeProtocol`/`Auth`/`Generic`). -/
inductive CloseReason where
  | protocolError
  | authError
  | generic
deriving DecidableEq, Repr

/-- Environment of one run of `handleClient`: whether `AcceptStream`
within the protocol timeout succeeds, and the control-stream
environment. (The post-handshake serving loop is abstracted: the claims
settled here concern only the handshake phase.) -/
structure ClientEnv where
  acceptControlStream : Bool
  ctrl : CtrlEnv

/-- Embedding of `(*Server).handleClient` (`pkg/core/server.go:78-106`)
up to and including the session close reason: event trace plus the
`CloseWithError` reason. -/
def handleClient (s : ServerCfg) (env : ClientEnv) :
    List CtrlEvent × CloseReason :=
  if ¬ env.acceptControlStream then ([], CloseReason.protocolError)
  else
    match handleControlStream s env.ctrl with
    | (tr, none) => (tr, CloseReason.protocolError)
    | (tr, some (_, ok)) =>
      if ¬ ok then (tr, CloseReason.authError)
      else (tr, CloseReason.generic)

/-- `min` with 0-means-unbounded ceiling, as the spec phrases the
negotiated rate: `min(requested, ceiling-or-unbounded)`. -/
def minCeil (requested ceiling : Nat) : Nat :=
  if ceiling = 0 then requested else min requested ceiling

/-- `acl.Action`: the four known routing actions, plus any other value
the (external, injected) ACL engine might return, which both servers
handle through their `default` switch branch. -/
inductive Action where
  | direct
  | proxy
  | block
  | hijack
  | other (n : Nat)
deriving DecidableEq, Repr

/-- `net.JoinHostPort` (Go stdlib): bracket the host when it contains a
colon, then join with a colon. -/
def joinHostPort (host port : String) : String :=
  if host.contains ':' then "[" ++ host ++ "]:" ++ port
  else host ++ ":" ++ port

/-- Externally visible events of the per-stream TCP handling path
(`handleStream` / `handleTCP` of the tunnel server). -/
inductive TCPEvent where
  /-- `s.aclEngine.Lookup(host, ip)` was invoked -/
  | aclLookup (domain : String) (ip : Option (List Nat))
  /-- the request-observed hook `s.tcpRequestFunc` was invoked -/
  | tcpRequest (remoteAddr : String) (auth : List Nat) (reqAddr : String)
      (action : Action) (arg : String)
  /-- the request-finished hook `s.tcpErrorFunc` was invoked -/
  | tcpError (remoteAddr : String) (auth : List Nat) (reqAddr : String)
      (err : Option String)
  /-- `net.DialTimeout("tcp", target, dialTimeout)` was invoked -/
  | dialAttempt (target : String)
  /-- a `serverResponse{OK, Message}` was packed onto the stream -/
  | writeResponse (ok : Bool) (message : String)
  /-- `utils.Pipe2Way(stream, conn)` was started -/
  | pipe2Way
  /-- the outbound connection was closed (deferred `conn.Close()`) -/
  | closeConn
  /-- the request stream was closed (deferred `stream.Close()`) -/
  | closeStream
deriving DecidableEq, Repr

/-- Environment of one run of the tunnel server's TCP path: outcomes of
the stdlib calls (`net.SplitHostPort`, `net.ParseIP`,
`net.DialTimeout`), the optional ACL engine, whether packing the
`OK:true` response succeeds, and the error `utils.Pipe2Way` eventually
returns (`none` = nil). IPs are abstract byte lists. -/
structure TCPEnv where
  splitHostPort : String → Except String (String × String)
  parseIP : String → Option (List Nat)
  acl : Option (String → Option (List Nat) → Action × String)
  dial : String → Except String Unit
  packOKResult : Bool
  pipeResult : Option String

/-- The dial-then-relay tail shared by the `Direct`/`Proxy` and
`Hijack` branches of `(*Server).handleTCP`
(`pkg/core/server.go:186-231`). -/
def handleTCPDial (env : TCPEnv) (remoteAddr : String) (auth : List Nat)
    (reqAddr target : String) : List TCPEvent :=
  match env.dial target with
  | Except.error e =>
    [TCPEvent.dialAttempt target,
     TCPEvent.writeResponse false e,
     TCPEvent.tcpError remoteAddr auth reqAddr (some e)]
  | Except.ok _ =>
    if env.packOKResult then
      [TCPEvent.dialAttempt target,
       TCPEvent.writeResponse true "",
       TCPEvent.pipe2Way,
       TCPEvent.tcpError remoteAddr auth reqAddr env.pipeResult,
       TCPEvent.closeConn]
    else
      [TCPEvent.dialAttempt target,
       TCPEvent.writeResponse true "",
       TCPEvent.closeConn]

/-- The `switch action` body of `(*Server).handleTCP`
(`pkg/core/server.go:186-220`). -/
def handleTCPAction (env : TCPEnv) (remoteAddr : String) (auth : List Nat)
    (reqAddr port : String) (action : Action) (arg : String) :
    List TCPEvent :=
  match action with
  | Action.direct => handleTCPDial env remoteAddr auth reqAddr reqAddr
  | Action.proxy => handleTCPDial env remoteAddr auth reqAddr reqAddr
  | Action.block => [TCPEvent.writeResponse false "blocked by ACL"]
  | Action.hijack =>
    handleTCPDial env remoteAddr auth reqAddr (joinHostPort arg port)
  | Action.other _ => [TCPEvent.writeResponse false "ACL error"]

/-- Embedding of `(*Server).handleTCP` (`pkg/core/server.go:164-231`):
the full event trace of one TCP request at the tunnel server. -/
def handleTCP (env : TCPEnv) (remoteAddr : String) (auth : List Nat)
    (reqAddr : String) : List TCPEvent :=
  match env.splitHostPort reqAddr with
  | Except.error e =>
    [TCPEvent.writeResponse false "invalid address",
     TCPEvent.tcpError remoteAddr auth reqAddr (some e)]
  | Except.ok hp =>
    let ip := env.parseIP hp.1
    let host := if ip.isSome then "" else hp.1
    let lk : List TCPEvent × Action × String :=
      match env.acl with
      | none => ([], Action.direct, "")
      | some f => ([TCPEvent.aclLookup host ip], f host ip)
    lk.1 ++
      TCPEvent.tcpRequest remoteAddr auth reqAddr lk.2.1 lk.2.2 ::
      handleTCPAction env remoteAddr auth reqAddr hp.2 lk.2.1 lk.2.2

/-- Embedding of `(*Server).handleStream` (`pkg/core/server.go:147-162`):
unpack one `clientRequest` (`none` = read error; otherwise UDP flag and
address string), handle TCP requests, and close the stream on exit
(the deferred `stream.Close()`). -/
def handleStream (env : TCPEnv) (unpackReq : Option (Bool × String))
    (remoteAddr : String) (auth : List Nat) : List TCPEvent :=
  (match unpackReq with
   | none => []
   | some req =>
     if req.1 then [] -- UDP: TODO in the source, nothing happens
     else handleTCP env remoteAddr auth req.2) ++ [TCPEvent.closeStream]

end Core

namespace Socks5

/-! Constants of the external `txthinking/socks5` library (RFC 1928
values), as used by `pkg/socks5/server.go`. -/

def methodNone : Nat := 0x00
def methodUsernamePassword : Nat := 0x02
def methodUnsupportAll : Nat := 0xFF
def cmdConnect : Nat := 0x01
def cmdUDP : Nat := 0x03
def repSuccess : Nat := 0x00
def repServerFailure : Nat := 0x01
def repHostUnreachable : Nat := 0x04
def repCommandNotSupported : Nat := 0x07
def userPassStatusSuccess : Nat := 0x00
def userPassStatusFailure : Nat := 0x01

/-- Externally visible events of the SOCKS5 front-end. -/
inductive Event where
  /-- a method-selection `NegotiationReply(method)` was written -/
  | negReply (method : Nat)
  /-- a `UserPassNegotiationReply(status)` was written -/
  | userPassReply (status : Nat)
  /-- the username/password auth callback was invoked -/
  | authCall (user pass : String)
  /-- `s.ACLEngine.Lookup(domain, ip)` was invoked -/
  | aclLookup (domain : String) (ip : Option (List Nat))
  /-- the request-observed hook `s.TCPRequestFunc` was invoked -/
  | tcpRequest (remoteAddr : String) (reqAddr : String)
      (action : Core.Action) (arg : String)
  /-- the request-finished hook `s.TCPErrorFunc` was invoked -/
  | tcpError (remoteAddr : String) (reqAddr : String) (err : Option String)
  /-- `net.Dial("tcp", target)` was invoked -/
  | dialDirect (target : String)
  /-- `s.HyClient.DialTCP(target)` was invoked -/
  | dialProxy (target : String)
  /-- a SOCKS5 `Reply(rep)` was written by `sendReply` -/
  | reply (rep : Nat)
  /-- `pipePair` was started -/
  | pipePairStart
  /-- the outbound connection was closed (deferred `rc.Close()`) -/
  | closeConn
deriving DecidableEq, Repr

/-- Environment of one run of `(*Server).negotiate`
(`pkg/socks5/server.go:66-107`): outcome of reading the client's
negotiation request (`none` = read error; otherwise the offered method
bytes), per-site write outcomes, and the username/password
sub-negotiation. -/
structure NegEnv where
  readMethods : Option (List Nat)
  writeUnsupportedOK : Bool
  writeChosenOK : Bool
  readUserPass : Option (String × String)
  authResult : String → String → Bool
  writeUserPassReplyOK : Bool

/-- Embedding of `(*Server).negotiate`: event trace plus whether it
returned nil (`true`) or an error (`false`). `method` is `s.Method`. -/
def negotiate (method : Nat) (env : NegEnv) : List Event × Bool :=
  match env.readMethods with
  | none => ([], false)
  | some methods =>
    -- for _, m = range rq.Methods { if m == s.Method { got = true } }
    let got := methods.contains method
    let pre : List Event × Bool :=
      if ¬ got then
        if ¬ env.writeUnsupportedOK then
          ([Event.negReply methodUnsupportAll], false)
        else if ¬ env.writeChosenOK then
          ([Event.negReply methodUnsupportAll, Event.negReply method], false)
        else
          ([Event.negReply methodUnsupportAll, Event.negReply method], true)
      else
        if ¬ env.writeChosenOK then ([Event.negReply method], false)
        else ([Event.negReply method], true)
    if ¬ pre.2 then pre
    else if method = methodUsernamePassword then
      match env.readUserPass with
      | none => (pre.1, false)
      | some up =>
        if ¬ env.authResult up.1 up.2 then
          (pre.1 ++ [Event.authCall up.1 up.2,
                     Event.userPassReply userPassStatusFailure], false)
        else
          (pre.1 ++ [Event.authCall up.1 up.2,
                     Event.userPassReply userPassStatusSuccess],
           env.writeUserPassReplyOK)
    else pre

/-- A SOCKS5 request destination: a domain (ATYPDomain, the bytes after
the leading length byte, as a string) or a literal IP (raw address
bytes). -/
inductive DstAddr where
  | domain (d : String)
  | ip (bytes : List Nat)
deriving DecidableEq, Repr

/-- The fields of `socks5.Request` used by the front-end: the command
byte, destination, and the two big-endian port bytes. -/
structure Request where
  cmd : Nat
  dst : DstAddr
  portHi : Nat
  portLo : Nat
deriving DecidableEq, Repr

/-- Embedding of `parseRequestAddress` (`pkg/socks5/server.go:217-225`).
`ipToString` stands for Go's `net.IP.String()` (stdlib). Returns
`(domain, ip, port, addr)`. -/
def parseRequestAddress (ipToString : List Nat → String) (r : Request) :
    String × Option (List Nat) × String × String :=
  let p := toString (256 * r.portHi + r.portLo)
  match r.dst with
  | DstAddr.domain d => (d, none, p, Core.joinHostPort d p)
  | DstAddr.ip b => ("", some b, p, Core.joinHostPort (ipToString b) p)

/-- Environment of one run of the front-end's `handleTCP`: the optional
ACL engine, the two dial capabilities (`net.Dial` and
`HyClient.DialTCP`), `net.IP.String()`, and the error `pipePair`
eventually returns. -/
structure TCPEnv where
  acl : Option (String → Option (List Nat) → Core.Action × String)
  dialTCP : String → Except String Unit
  dialHy : String → Except String Unit
  ipToString : List Nat → String
  pipeResult : Option String

/-- The dial-reply-relay tail shared by the `Direct`, `Proxy` and
`Hijack` branches of the front-end's `handleTCP`: dial with the given
capability, on failure reply host-unreachable, on success reply
success, run `pipePair`, close the outbound connection. Returns the
events and the `closeErr` reported by the deferred finished hook. -/
def handleTCPDial (dial : String → Except String Unit)
    (pipeResult : Option String) (target : String)
    (dialEvent : String → Event) : List Event × Option String :=
  match dial target with
  | Except.error e =>
    ([dialEvent target, Event.reply repHostUnreachable], some e)
  | Except.ok _ =>
    ([dialEvent target, Event.reply repSuccess, Event.pipePairStart,
      Event.closeConn], pipeResult)

/-- The `switch action` body of the front-end's `handleTCP`
(`pkg/socks5/server.go:166-208`). -/
def handleTCPAction (env : TCPEnv) (addr port : String) (action : Core.Action)
    (arg : String) : List Event × Option String :=
  match action with
  | Core.Action.direct =>
    handleTCPDial env.dialTCP env.pipeResult addr Event.dialDirect
  | Core.Action.proxy =>
    handleTCPDial env.dialHy env.pipeResult addr Event.dialProxy
  | Core.Action.block =>
    ([Event.reply repHostUnreachable], some "blocked in ACL")
  | Core.Action.hijack =>
    handleTCPDial env.dialTCP env.pipeResult (Core.joinHostPort arg port)
      Event.dialDirect
  | Core.Action.other n =>
    ([Event.reply repServerFailure], some ("unknown action " ++ toString n))

/-- Embedding of the front-end's `(*Server).handleTCP`
(`pkg/socks5/server.go:154-209`): the full event trace of one CONNECT
request. The deferred `s.TCPErrorFunc` always runs last (it was
deferred before the outbound connection's `Close`). -/
def handleTCP (env : TCPEnv) (remoteAddr : String) (r : Request) :
    List Event :=
  let pr := parseRequestAddress env.ipToString r
  let lk : List Event × Core.Action × String :=
    match env.acl with
    | none => ([], Core.Action.proxy, "")
    | some f => ([Event.aclLookup pr.1 pr.2.1], f pr.1 pr.2.1)
  let body := handleTCPAction env pr.2.2.2 pr.2.2.1 lk.2.1 lk.2.2
  lk.1 ++
    Event.tcpRequest remoteAddr pr.2.2.2 lk.2.1 lk.2.2 ::
    body.1 ++ [Event.tcpError remoteAddr pr.2.2.2 body.2]

/-- One copy-loop direction of `pipePair` (`pkg/socks5/server.go:227-272`).
The direction's reads are scripted as a list of `(chunk, err)` pairs —
Go's `(rn, err) := Read(buf)` with `rn = chunk.length` — and the
outcome of the `i`-th `Write` call is `writeErr i` (`none` = success).
Returns the chunks handed to `Write`, in order, and the error the
goroutine sends on `errChan` (`none` when the script ends with the loop
still running, i.e. no error was produced). -/
def pipeDirAux (writeErr : Nat → Option String) :
    List (List Nat × Option String) → Nat → List (List Nat) × Option String
  | [], _ => ([], none)
  | r :: rest, i =>
    if r.1.length > 0 then
      -- rn > 0: write buf[:rn] first
      match writeErr i with
      | some e => ([r.1], some e)
      | none =>
        match r.2 with
        | some e => ([r.1], some e)
        | none =>
          let p := pipeDirAux writeErr rest (i + 1)
          (r.1 :: p.1, p.2)
    else
      match r.2 with
      | some e => ([], some e)
      | none => pipeDirAux writeErr rest i

/-- One direction of `pipePair`, starting from write call 0. -/
def pipeDir (writeErr : Nat → Option String)
    (reads : List (List Nat × Option String)) :
    List (List Nat) × Option String :=
  pipeDirAux writeErr reads 0

/-- Embedding of `pipePair`'s result: `return <-errChan` yields the
error of whichever direction produced one first. The scheduling —
which of the two concurrent goroutines sends on the channel first — is
an input (`dir1First`); the chosen direction must actually have
produced an error for it to be the first sender. -/
def pipePair (reads1 reads2 : List (List Nat × Option String))
    (writeErr1 writeErr2 : Nat → Option String) (dir1First : Bool) :
    Option String :=
  if dir1First then (pipeDir writeErr1 reads1).2
  else (pipeDir writeErr2 reads2).2

end Socks5

/-! ## Derived observation functions -/

namespace Core

/-- The server hellos packed onto the control stream, in order. -/
def serverHellos (tr : List CtrlEvent) : List ServerHello :=
  tr.filterMap fun e =>
    match e with
    | CtrlEvent.writeServerHello sh => some sh
    | _ => none

/-- Number of invocations of the request-observed hook in a trace. -/
def countTCPRequest (tr : List TCPEvent) : Nat :=
  tr.countP fun e =>
    match e with
    | TCPEvent.tcpRequest _ _ _ _ _ => true
    | _ => false

/-- Number of invocations of the request-finished hook in a trace. -/
def countTCPError (tr : List TCPEvent) : Nat :=
  tr.countP fun e =>
    match e with
    | TCPEvent.tcpError _ _ _ _ => true
    | _ => false

/-- The action/argument the tunnel server dispatches for a split host:
the IP-literal host clearing followed by the ACL lookup with
Direct as the no-engine default (`pkg/core/server.go:174-182`). -/
def dispatchedAction (env : TCPEnv) (host0 : String) : Action × String :=
  let ip := env.parseIP host0
  let host := if ip.isSome then "" else host0
  match env.acl with
  | none => (Action.direct, "")
  | some f => f host ip

/-- How many times the finished hook fires on the tunnel server's TCP
path after a successful address split, as a function of the dispatched
action: never on Block or unknown actions; on dialing actions, once if
the dial fails, and once after the relay if the `OK:true` response
write succeeds, but not when that write fails. -/
def finishedHookCount (env : TCPEnv) (reqAddr port : String)
    (action : Action) (arg : String) : Nat :=
  let dialCount : String → Nat := fun t =>
    match env.dial t with
    | Except.error _ => 1
    | Except.ok _ => if env.packOKResult then 1 else 0
  match action with
  | Action.block => 0
  | Action.other _ => 0
  | Action.direct => dialCount reqAddr
  | Action.proxy => dialCount reqAddr
  | Action.hijack => dialCount (joinHostPort arg port)

end Core

namespace Socks5

/-- Number of invocations of the request-observed hook in a trace. -/
def countTCPRequest (tr : List Event) : Nat :=
  tr.countP fun e =>
    match e with
    | Event.tcpRequest _ _ _ _ => true
    | _ => false

/-- Number of invocations of the request-finished hook in a trace. -/
def countTCPError (tr : List Event) : Nat :=
  tr.countP fun e =>
    match e with
    | Event.tcpError _ _ _ => true
    | _ => false

/-- The method-selection replies written during negotiation, in
order. -/
def negReplies (tr : List Event) : List Nat :=
  tr.filterMap fun e =>
    match e with
    | Event.negReply m => some m
    | _ => none

/-- The chunks of a read script that the copy loop hands to `Write`:
those with a strictly positive byte count. -/
def nonemptyChunks (l : List (List Nat × Option String)) : List (List Nat) :=
  l.filterMap fun r => if r.1.length > 0 then some r.1 else none

/-- The action/argument the SOCKS front-end dispatches: the ACL lookup
with Proxy as the no-engine default (`pkg/socks5/server.go:156-159`). -/
def dispatchedAction (env : TCPEnv) (domain : String)
    (ip : Option (List Nat)) : Core.Action × String :=
  match env.acl with
  | none => (Core.Action.proxy, "")
  | some f => f domain ip

end Socks5

/-! ## Concrete environments used by the witnesses -/

/-- A core TCP environment whose external calls all succeed, with no
ACL engine. -/
def coreEnvPlain : Core.TCPEnv where
  splitHostPort := fun _ => Except.ok ("example.com", "80")
  parseIP := fun _ => none
  acl := none
  dial := fun _ => Except.ok ()
  packOKResult := true
  pipeResult := none

/-- A SOCKS5 TCP environment whose external calls all succeed, with no
ACL engine. -/
def socksEnvPlain : Socks5.TCPEnv where
  acl := none
  dialTCP := fun _ => Except.ok ()
  dialHy := fun _ => Except.ok ()
  ipToString := fun _ => "1.2.3.4"
  pipeResult := none

/-- A SOCKS5 request for `example.com:80`. -/
def socksReqPlain : Socks5.Request where
  cmd := Socks5.cmdConnect
  dst := Socks5.DstAddr.domain "example.com"
  portHi := 0
  portLo := 80

/-- A core TCP environment whose ACL engine hijacks every request to
`10.0.0.5`. -/
def coreEnvHijack : Core.TCPEnv where
  splitHostPort := fun _ => Except.ok ("internal.example.com", "443")
  parseIP := fun _ => none
  acl := some fun _ _ => (Core.Action.hijack, "10.0.0.5")
  dial := fun _ => Except.ok ()
  packOKResult := true
  pipeResult := none

/-- A SOCKS5 TCP environment whose ACL engine hijacks every request to
`10.0.0.5`. -/
def socksEnvHijack : Socks5.TCPEnv where
  acl := some fun _ _ => (Core.Action.hijack, "10.0.0.5")
  dialTCP := fun _ => Except.ok ()
  dialHy := fun _ => Except.ok ()
  ipToString := fun _ => "1.2.3.4"
  pipeResult := none

/-- A core TCP environment whose address split yields a literal IP
host. -/
def coreEnvIP : Core.TCPEnv where
  splitHostPort := fun _ => Except.ok ("1.2.3.4", "80")
  parseIP := fun s => if s = "1.2.3.4" then some [1, 2, 3, 4] else none
  acl := some fun _ _ => (Core.Action.direct, "")
  dial := fun _ => Except.ok ()
  packOKResult := true
  pipeResult := none

/-- A core TCP environment whose ACL engine blocks every request. -/
def coreEnvBlock : Core.TCPEnv where
  splitHostPort := fun _ => Except.ok ("ads.example.com", "80")
  parseIP := fun _ => none
  acl := some fun _ _ => (Core.Action.block, "")
  dial := fun _ => Except.ok ()
  packOKResult := true
  pipeResult := none

/-- A core TCP environment whose ACL engine returns an unknown
action. -/
def coreEnvOther : Core.TCPEnv where
  splitHostPort := fun _ => Except.ok ("example.com", "80")
  parseIP := fun _ => none
  acl := some fun _ _ => (Core.Action.other 9, "")
  dial := fun _ => Except.ok ()
  packOKResult := true
  pipeResult := none

/-- A SOCKS5 TCP environment whose ACL engine blocks every request. -/
def socksEnvBlock : Socks5.TCPEnv where
  acl := some fun _ _ => (Core.Action.block, "")
  dialTCP := fun _ => Except.ok ()
  dialHy := fun _ => Except.ok ()
  ipToString := fun _ => "1.2.3.4"
  pipeResult := none

/-- A SOCKS5 TCP environment whose ACL engine returns an unknown
action. -/
def socksEnvOther : Socks5.TCPEnv where
  acl := some fun _ _ => (Core.Action.other 9, "")
  dialTCP := fun _ => Except.ok ()
  dialHy := fun _ => Except.ok ()
  ipToString := fun _ => "1.2.3.4"
  pipeResult := none

/-! ## Claims -/

namespace Core

/-- Both clamps in `handleControlStream` compute
`min(requested, ceiling-or-unbounded)`. -/
lemma clamp_eq_minCeil (r c : Nat) :
    (if c > 0 ∧ r > c then c else r) = minCeil r c := by
  unfold minCeil
  rcases Nat.eq_zero_or_pos c with hc | hc
  · subst hc; simp
  · rw [if_neg (by omega : ¬ c = 0)]
    rcases le_or_lt r c with h | h
    · rw [if_neg (by omega), Nat.min_eq_left h]
    · rw [if_pos ⟨hc, h⟩, Nat.min_eq_right (le_of_lt h)]

/-- Trace shape of a control handshake with positive requested rates. -/
lemma handleControlStream_trace (cfg : ServerCfg) (env : CtrlEnv)
    (ch : ClientHello) (h : env.unpackHello = some ch)
    (hs : 0 < ch.rate.sendBPS) (hr : 0 < ch.rate.recvBPS) :
    (handleControlStream cfg env).1 =
      [CtrlEvent.authCall ch.auth (minCeil ch.rate.recvBPS cfg.sendBPS)
        (minCeil ch.rate.sendBPS cfg.recvBPS),
       CtrlEvent.writeServerHello
        ⟨(env.authResult ch.auth (minCeil ch.rate.recvBPS cfg.sendBPS)
            (minCeil ch.rate.sendBPS cfg.recvBPS)).1,
         ⟨minCeil ch.rate.recvBPS cfg.sendBPS,
          minCeil ch.rate.sendBPS cfg.recvBPS⟩,
         (env.authResult ch.auth (minCeil ch.rate.recvBPS cfg.sendBPS)
            (minCeil ch.rate.sendBPS cfg.recvBPS)).2⟩] ++
      (if env.packHelloOK ∧
          (env.authResult ch.auth (minCeil ch.rate.recvBPS cfg.sendBPS)
            (minCeil ch.rate.sendBPS cfg.recvBPS)).1 ∧
          cfg.congestionFactory then
        [CtrlEvent.setCongestion (minCeil ch.rate.recvBPS cfg.sendBPS)]
      else []) := by
  unfold handleControlStream
  rw [h]
  simp only
  rw [if_neg (by omega : ¬ (ch.rate.sendBPS = 0 ∨ ch.rate.recvBPS = 0))]
  simp only [clamp_eq_minCeil]
  rcases hp : env.packHelloOK with _ | _
  · simp [hp]
  · simp only [hp, if_true, true_and]
    split
    · simp
    · simp_all

/-- minCeil never exceeds the requested rate. -/
lemma minCeil_le_requested (r c : Nat) : minCeil r c ≤ r := by
  unfold minCeil; split
  · exact le_refl r
  · exact Nat.min_le_left r c

/-- minCeil never exceeds a positive ceiling. -/
lemma minCeil_le_ceiling (r c : Nat) (hc : 0 < c) : minCeil r c ≤ c := by
  unfold minCeil
  rw [if_neg (by omega : ¬ c = 0)]
  exact Nat.min_le_right r c

/-- C1: for every client hello with strictly positive requested rates
`(Rs, Rr)` and server ceilings `(Cs, Cr)` (0 = unbounded), the control
handshake writes back exactly one server hello, whose rates are
`negotiatedSend = min(Rr, Cs-or-unbounded)` and
`negotiatedRecv = min(Rs, Cr-or-unbounded)`; consequently the
advertised rate in each direction is at most what the client requested
for that direction and, when the corresponding ceiling is bounded, at
most the ceiling. -/
theorem C1_negotiated_rates (cfg : ServerCfg) (env : CtrlEnv)
    (ch : ClientHello) (h : env.unpackHello = some ch)
    (hs : 0 < ch.rate.sendBPS) (hr : 0 < ch.rate.recvBPS) :
    ∃ ok msg,
      serverHellos (handleControlStream cfg env).1 =
        [⟨ok, ⟨minCeil ch.rate.recvBPS cfg.sendBPS,
               minCeil ch.rate.sendBPS cfg.recvBPS⟩, msg⟩] ∧
      minCeil ch.rate.recvBPS cfg.sendBPS ≤ ch.rate.recvBPS ∧
      (0 < cfg.sendBPS → minCeil ch.rate.recvBPS cfg.sendBPS ≤ cfg.sendBPS) ∧
      minCeil ch.rate.sendBPS cfg.recvBPS ≤ ch.rate.sendBPS ∧
      (0 < cfg.recvBPS → minCeil ch.rate.sendBPS cfg.recvBPS ≤ cfg.recvBPS) := by
  refine ⟨(env.authResult ch.auth (minCeil ch.rate.recvBPS cfg.sendBPS)
            (minCeil ch.rate.sendBPS cfg.recvBPS)).1,
          (env.authResult ch.auth (minCeil ch.rate.recvBPS cfg.sendBPS)
            (minCeil ch.rate.sendBPS cfg.recvBPS)).2, ?_,
          minCeil_le_requested _ _, minCeil_le_ceiling _ _,
          minCeil_le_requested _ _, minCeil_le_ceiling _ _⟩
  rw [handleControlStream_trace cfg env ch h hs hr]
  unfold serverHellos
  split <;> simp

/-- C1 witness. -/
theorem C1_witness :
    (∃ ok msg,
      serverHellos (handleControlStream ⟨100, 50, false⟩
          ⟨some ⟨[1], ⟨30, 200⟩⟩, fun _ _ _ => (true, "ok"), true⟩).1 =
        [⟨ok, ⟨minCeil 200 100, minCeil 30 50⟩, msg⟩] ∧
      minCeil 200 100 ≤ 200 ∧
      (0 < 100 → minCeil 200 100 ≤ 100) ∧
      minCeil 30 50 ≤ 30 ∧
      (0 < 50 → minCeil 30 50 ≤ 50)) :=
  C1_negotiated_rates ⟨100, 50, false⟩
    ⟨some ⟨[1], ⟨30, 200⟩⟩, fun _ _ _ => (true, "ok"), true⟩
    ⟨[1], ⟨30, 200⟩⟩ rfl (by decide) (by decide)

/-- C2: a client hello with either requested rate equal to zero is
rejected before the authentication capability is invoked: the session
trace is empty (no auth call, no server hello written) and the session
is closed with the protocol-error reason. -/
theorem C2_zero_rate_rejected (cfg : ServerCfg) (env : ClientEnv)
    (ch : ClientHello) (hacc : env.acceptControlStream = true)
    (h : env.ctrl.unpackHello = some ch)
    (hzero : ch.rate.sendBPS = 0 ∨ ch.rate.recvBPS = 0) :
    (∀ a ss sr, CtrlEvent.authCall a ss sr ∉ (handleClient cfg env).1) ∧
    (∀ sh, CtrlEvent.writeServerHello sh ∉ (handleClient cfg env).1) ∧
    (handleClient cfg env).2 = CloseReason.protocolError := by
  have hrun : handleClient cfg env = ([], CloseReason.protocolError) := by
    unfold handleClient handleControlStream
    rw [h, hacc]
    simp only [if_pos hzero]
    simp
  rw [hrun]
  exact ⟨fun a ss sr => List.not_mem_nil _, fun sh => List.not_mem_nil _, rfl⟩

/-- C2 witness: send rate 0. -/
theorem C2_witness :
    (∀ a ss sr, CtrlEvent.authCall a ss sr ∉
      (handleClient ⟨100, 50, false⟩
        ⟨true, ⟨some ⟨[1], ⟨0, 200⟩⟩, fun _ _ _ => (true, "ok"), true⟩⟩).1) ∧
    (∀ sh, CtrlEvent.writeServerHello sh ∉
      (handleClient ⟨100, 50, false⟩
        ⟨true, ⟨some ⟨[1], ⟨0, 200⟩⟩, fun _ _ _ => (true, "ok"), true⟩⟩).1) ∧
    (handleClient ⟨100, 50, false⟩
        ⟨true, ⟨some ⟨[1], ⟨0, 200⟩⟩, fun _ _ _ => (true, "ok"), true⟩⟩).2 =
      CloseReason.protocolError :=
  C2_zero_rate_rejected ⟨100, 50, false⟩
    ⟨true, ⟨some ⟨[1], ⟨0, 200⟩⟩, fun _ _ _ => (true, "ok"), true⟩⟩
    ⟨[1], ⟨0, 200⟩⟩ rfl rfl (Or.inl rfl)

/-- Normal form of the tunnel server's `handleTCP` trace after a
successful address split: optional ACL-lookup event, the observed
hook, then the action body. -/
lemma handleTCP_eq (env : TCPEnv) (remoteAddr : String) (auth : List Nat)
    (reqAddr : String) (hp : String × String)
    (h : env.splitHostPort reqAddr = Except.ok hp) :
    handleTCP env remoteAddr auth reqAddr =
      (match env.acl with
       | none => []
       | some _ =>
         [TCPEvent.aclLookup (if (env.parseIP hp.1).isSome then "" else hp.1)
           (env.parseIP hp.1)]) ++
      TCPEvent.tcpRequest remoteAddr auth reqAddr
        (dispatchedAction env hp.1).1 (dispatchedAction env hp.1).2 ::
      handleTCPAction env remoteAddr auth reqAddr hp.2
        (dispatchedAction env hp.1).1 (dispatchedAction env hp.1).2 := by
  unfold handleTCP dispatchedAction
  rw [h]
  rcases env.acl with _ | f <;> simp

/-- The only dial the tunnel server's dial tail attempts is its
target. -/
lemma dialAttempt_handleTCPDial (env : TCPEnv) (remoteAddr : String)
    (auth : List Nat) (reqAddr target u : String) :
    TCPEvent.dialAttempt u ∈ handleTCPDial env remoteAddr auth reqAddr target ↔
      u = target := by
  unfold handleTCPDial
  rcases env.dial target with e | v
  · simp
  · rcases hpk : env.packOKResult with _ | _ <;> simp [hpk]

/-- Which dials the tunnel server's action switch attempts. -/
lemma dialAttempt_handleTCPAction (env : TCPEnv) (remoteAddr : String)
    (auth : List Nat) (reqAddr port : String) (action : Action) (arg u : String) :
    TCPEvent.dialAttempt u ∈
        handleTCPAction env remoteAddr auth reqAddr port action arg ↔
      ((action = Action.direct ∨ action = Action.proxy) ∧ u = reqAddr) ∨
      (action = Action.hijack ∧ u = joinHostPort arg port) := by
  cases action <;>
    simp [handleTCPAction, dialAttempt_handleTCPDial]

end Core

namespace Socks5

/-- Normal form of the front-end's `handleTCP` trace: optional
ACL-lookup event, the observed hook, the action body, and the deferred
finished hook last. -/
lemma handleTCPTrace_eq (env : TCPEnv) (remoteAddr : String) (r : Request) :
    handleTCP env remoteAddr r =
      (match env.acl with
       | none => []
       | some _ =>
         [Event.aclLookup (parseRequestAddress env.ipToString r).1
           (parseRequestAddress env.ipToString r).2.1]) ++
      Event.tcpRequest remoteAddr (parseRequestAddress env.ipToString r).2.2.2
        (dispatchedAction env (parseRequestAddress env.ipToString r).1
          (parseRequestAddress env.ipToString r).2.1).1
        (dispatchedAction env (parseRequestAddress env.ipToString r).1
          (parseRequestAddress env.ipToString r).2.1).2 ::
      (handleTCPAction env (parseRequestAddress env.ipToString r).2.2.2
        (parseRequestAddress env.ipToString r).2.2.1
        (dispatchedAction env (parseRequestAddress env.ipToString r).1
          (parseRequestAddress env.ipToString r).2.1).1
        (dispatchedAction env (parseRequestAddress env.ipToString r).1
          (parseRequestAddress env.ipToString r).2.1).2).1 ++
      [Event.tcpError remoteAddr (parseRequestAddress env.ipToString r).2.2.2
        (handleTCPAction env (parseRequestAddress env.ipToString r).2.2.2
          (parseRequestAddress env.ipToString r).2.2.1
          (dispatchedAction env (parseRequestAddress env.ipToString r).1
            (parseRequestAddress env.ipToString r).2.1).1
          (dispatchedAction env (parseRequestAddress env.ipToString r).1
            (parseRequestAddress env.ipToString r).2.1).2).2] := by
  unfold handleTCP dispatchedAction
  rcases env.acl with _ | f <;> simp

/-- Which `net.Dial` targets the front-end's action switch attempts. -/
lemma dialDirect_handleTCPAction (env : TCPEnv) (addr port : String)
    (action : Core.Action) (arg t : String) :
    Event.dialDirect t ∈ (handleTCPAction env addr port action arg).1 ↔
      (action = Core.Action.direct ∧ t = addr) ∨
      (action = Core.Action.hijack ∧ t = Core.joinHostPort arg port) := by
  cases action with
  | direct =>
    unfold handleTCPAction handleTCPDial
    rcases env.dialTCP addr with e | v <;> simp
  | proxy =>
    unfold handleTCPAction handleTCPDial
    rcases env.dialHy addr with e | v <;> simp
  | block => simp [handleTCPAction]
  | hijack =>
    unfold handleTCPAction handleTCPDial
    rcases env.dialTCP (Core.joinHostPort arg port) with e | v <;> simp
  | other n => simp [handleTCPAction]

/-- Which tunnel-dial targets the front-end's action switch attempts. -/
lemma dialProxy_handleTCPAction (env : TCPEnv) (addr port : String)
    (action : Core.Action) (arg t : String) :
    Event.dialProxy t ∈ (handleTCPAction env addr port action arg).1 ↔
      action = Core.Action.proxy ∧ t = addr := by
  cases action with
  | direct =>
    unfold handleTCPAction handleTCPDial
    rcases env.dialTCP addr with e | v <;> simp
  | proxy =>
    unfold handleTCPAction handleTCPDial
    rcases env.dialHy addr with e | v <;> simp
  | block => simp [handleTCPAction]
  | hijack =>
    unfold handleTCPAction handleTCPDial
    rcases env.dialTCP (Core.joinHostPort arg port) with e | v <;> simp
  | other n => simp [handleTCPAction]

end Socks5

/-- C4: with no ACL engine configured, the tunnel server dispatches
every request (whose address splits) to action Direct with an empty
argument, and the SOCKS front-end dispatches every request to action
Proxy with an empty argument — as reported by the observed hook, which
heads the trace. -/
theorem C4_default_actions :
    (∀ (env : Core.TCPEnv) (remoteAddr : String) (auth : List Nat)
        (reqAddr : String) (hp : String × String),
      env.acl = none → env.splitHostPort reqAddr = Except.ok hp →
      ∃ tail, Core.handleTCP env remoteAddr auth reqAddr =
        Core.TCPEvent.tcpRequest remoteAddr auth reqAddr
          Core.Action.direct "" :: tail) ∧
    (∀ (env : Socks5.TCPEnv) (remoteAddr : String) (r : Socks5.Request),
      env.acl = none →
      ∃ tail, Socks5.handleTCP env remoteAddr r =
        Socks5.Event.tcpRequest remoteAddr
          (Socks5.parseRequestAddress env.ipToString r).2.2.2
          Core.Action.proxy "" :: tail) := by
  constructor
  · intro env remoteAddr auth reqAddr hp hacl hsplit
    refine ⟨Core.handleTCPAction env remoteAddr auth reqAddr hp.2
      Core.Action.direct "", ?_⟩
    rw [Core.handleTCP_eq env remoteAddr auth reqAddr hp hsplit]
    simp [Core.dispatchedAction, hacl]
  · intro env remoteAddr r hacl
    refine ⟨(Socks5.handleTCPAction env
        (Socks5.parseRequestAddress env.ipToString r).2.2.2
        (Socks5.parseRequestAddress env.ipToString r).2.2.1
        Core.Action.proxy "").1 ++
      [Socks5.Event.tcpError remoteAddr
        (Socks5.parseRequestAddress env.ipToString r).2.2.2
        (Socks5.handleTCPAction env
          (Socks5.parseRequestAddress env.ipToString r).2.2.2
          (Socks5.parseRequestAddress env.ipToString r).2.2.1
          Core.Action.proxy "").2], ?_⟩
    rw [Socks5.handleTCPTrace_eq env remoteAddr r]
    simp [Socks5.dispatchedAction, hacl]

/-- C4 witness. -/
theorem C4_witness :
    (∃ tail, Core.handleTCP coreEnvPlain "1.2.3.4:9" [7] "example.com:80" =
      Core.TCPEvent.tcpRequest "1.2.3.4:9" [7] "example.com:80"
        Core.Action.direct "" :: tail) ∧
    (∃ tail, Socks5.handleTCP socksEnvPlain "9.8.7.6:1" socksReqPlain =
      Socks5.Event.tcpRequest "9.8.7.6:1"
        (Socks5.parseRequestAddress socksEnvPlain.ipToString socksReqPlain).2.2.2
        Core.Action.proxy "" :: tail) :=
  ⟨C4_default_actions.1 coreEnvPlain "1.2.3.4:9" [7] "example.com:80"
    ("example.com", "80") rfl rfl,
   C4_default_actions.2 socksEnvPlain "9.8.7.6:1" socksReqPlain rfl⟩

/-- C5: a request dispatched to Hijack with argument `A` dials exactly
`JoinHostPort(A, P)` where `P` is the original destination port — at
the tunnel server (port from splitting the requested address) and at
the SOCKS front-end (port from the request's port bytes); moreover no
other dial target is ever attempted on that request. -/
theorem C5_hijack_dial_target :
    (∀ (env : Core.TCPEnv) (remoteAddr : String) (auth : List Nat)
        (reqAddr : String) (hp : String × String) (arg : String),
      env.splitHostPort reqAddr = Except.ok hp →
      Core.dispatchedAction env hp.1 = (Core.Action.hijack, arg) →
      Core.TCPEvent.dialAttempt (Core.joinHostPort arg hp.2) ∈
          Core.handleTCP env remoteAddr auth reqAddr ∧
      ∀ t, Core.TCPEvent.dialAttempt t ∈
          Core.handleTCP env remoteAddr auth reqAddr →
        t = Core.joinHostPort arg hp.2) ∧
    (∀ (env : Socks5.TCPEnv) (remoteAddr : String) (r : Socks5.Request)
        (arg : String),
      Socks5.dispatchedAction env (Socks5.parseRequestAddress env.ipToString r).1
          (Socks5.parseRequestAddress env.ipToString r).2.1 =
        (Core.Action.hijack, arg) →
      Socks5.Event.dialDirect
          (Core.joinHostPort arg
            (Socks5.parseRequestAddress env.ipToString r).2.2.1) ∈
        Socks5.handleTCP env remoteAddr r ∧
      ∀ t, (Socks5.Event.dialDirect t ∈ Socks5.handleTCP env remoteAddr r ∨
            Socks5.Event.dialProxy t ∈ Socks5.handleTCP env remoteAddr r) →
        t = Core.joinHostPort arg
              (Socks5.parseRequestAddress env.ipToString r).2.2.1) := by
  constructor
  · intro env remoteAddr auth reqAddr hp arg hsplit hdisp
    rw [Core.handleTCP_eq env remoteAddr auth reqAddr hp hsplit, hdisp]
    constructor
    · rcases hacl : env.acl with _ | f <;>
        simp [hacl, Core.handleTCPAction, Core.dialAttempt_handleTCPDial]
    · intro t ht
      rcases hacl : env.acl with _ | f <;>
        simp [hacl, Core.dialAttempt_handleTCPAction] at ht <;>
        exact ht
  · intro env remoteAddr r arg hdisp
    rw [Socks5.handleTCPTrace_eq env remoteAddr r, hdisp]
    constructor
    · rcases hacl : env.acl with _ | f <;>
        simp [hacl, Socks5.dialDirect_handleTCPAction]
    · intro t ht
      rcases hacl : env.acl with _ | f <;>
        rcases ht with ht | ht <;>
        simp [hacl, Socks5.dialDirect_handleTCPAction,
          Socks5.dialProxy_handleTCPAction] at ht <;>
        tauto

/-- C5 witness: original port 443 at the tunnel server, port 80 at the
front-end, host replaced by `10.0.0.5`. -/
theorem C5_witness :
    (Core.TCPEvent.dialAttempt (Core.joinHostPort "10.0.0.5" "443") ∈
        Core.handleTCP coreEnvHijack "peer" [] "internal.example.com:443" ∧
      ∀ t, Core.TCPEvent.dialAttempt t ∈
          Core.handleTCP coreEnvHijack "peer" [] "internal.example.com:443" →
        t = Core.joinHostPort "10.0.0.5" "443") ∧
    (Socks5.Event.dialDirect
        (Core.joinHostPort "10.0.0.5"
          (Socks5.parseRequestAddress socksEnvHijack.ipToString
            socksReqPlain).2.2.1) ∈
        Socks5.handleTCP socksEnvHijack "peer2" socksReqPlain ∧
      ∀ t, (Socks5.Event.dialDirect t ∈
              Socks5.handleTCP socksEnvHijack "peer2" socksReqPlain ∨
            Socks5.Event.dialProxy t ∈
              Socks5.handleTCP socksEnvHijack "peer2" socksReqPlain) →
        t = Core.joinHostPort "10.0.0.5"
              (Socks5.parseRequestAddress socksEnvHijack.ipToString
                socksReqPlain).2.2.1) :=
  ⟨C5_hijack_dial_target.1 coreEnvHijack "peer" [] "internal.example.com:443"
    ("internal.example.com", "443") "10.0.0.5" rfl rfl,
   C5_hijack_dial_target.2 socksEnvHijack "peer2" socksReqPlain "10.0.0.5" rfl⟩

namespace Core

/-- The tunnel server's dial tail never performs an ACL lookup. -/
lemma aclLookup_handleTCPDial (env : TCPEnv) (remoteAddr : String)
    (auth : List Nat) (reqAddr target : String) (d : String)
    (i : Option (List Nat)) :
    TCPEvent.aclLookup d i ∉ handleTCPDial env remoteAddr auth reqAddr target := by
  unfold handleTCPDial
  rcases env.dial target with e | v
  · simp
  · rcases hpk : env.packOKResult with _ | _ <;> simp [hpk]

/-- The tunnel server's action switch never performs an ACL lookup. -/
lemma aclLookup_handleTCPAction (env : TCPEnv) (remoteAddr : String)
    (auth : List Nat) (reqAddr port : String) (action : Action) (arg : String)
    (d : String) (i : Option (List Nat)) :
    TCPEvent.aclLookup d i ∉
      handleTCPAction env remoteAddr auth reqAddr port action arg := by
  cases action <;> simp [handleTCPAction, aclLookup_handleTCPDial]

end Core

/-- C6: at the tunnel server the requested address is split into host
and port before dispatch; whenever the host parses as a literal IP, the
ACL lookup receives the empty string as its domain argument together
with the parsed IP; and (provided the empty string does not parse as an
IP, as with `net.ParseIP`) the lookup's domain argument never parses as
a textual IP. -/
theorem C6_acl_domain_never_ip (env : Core.TCPEnv) (remoteAddr : String)
    (auth : List Nat) (reqAddr : String) (hp : String × String)
    (f : String → Option (List Nat) → Core.Action × String)
    (hsplit : env.splitHostPort reqAddr = Except.ok hp)
    (hacl : env.acl = some f) (hempty : env.parseIP "" = none) :
    (∀ ip, env.parseIP hp.1 = some ip →
      Core.TCPEvent.aclLookup "" (some ip) ∈
        Core.handleTCP env remoteAddr auth reqAddr) ∧
    (∀ d i, Core.TCPEvent.aclLookup d i ∈
        Core.handleTCP env remoteAddr auth reqAddr →
      env.parseIP d = none ∧ i = env.parseIP hp.1) := by
  rw [Core.handleTCP_eq env remoteAddr auth reqAddr hp hsplit]
  constructor
  · intro ip hip
    simp [hacl, hip]
  · intro d i hmem
    simp [hacl, Core.aclLookup_handleTCPAction] at hmem
    obtain ⟨hd, hi⟩ := hmem
    subst hd
    subst hi
    rcases hip : env.parseIP hp.1 with _ | ip
    · simp [hip]
    · simp [hip, hempty]

/-- C6 witness: request for `1.2.3.4:80`. -/
theorem C6_witness :
    (∀ ip, coreEnvIP.parseIP "1.2.3.4" = some ip →
      Core.TCPEvent.aclLookup "" (some ip) ∈
        Core.handleTCP coreEnvIP "peer" [] "1.2.3.4:80") ∧
    (∀ d i, Core.TCPEvent.aclLookup d i ∈
        Core.handleTCP coreEnvIP "peer" [] "1.2.3.4:80" →
      coreEnvIP.parseIP d = none ∧ i = coreEnvIP.parseIP "1.2.3.4") :=
  C6_acl_domain_never_ip coreEnvIP "peer" [] "1.2.3.4:80" ("1.2.3.4", "80")
    (fun _ _ => (Core.Action.direct, "")) rfl rfl rfl

/-- C7: a request dispatched to Block, or to an action outside
{Direct, Proxy, Block, Hijack}, never attempts an outbound dial and is
answered with a failure reply: the Block refusal
(`blocked by ACL` / host-unreachable) for Block, and the
server-failure-class refusal (`ACL error` / server-failure) for
unknown actions — at both the tunnel server and the SOCKS
front-end. -/
theorem C7_block_unknown_refused :
    (∀ (env : Core.TCPEnv) (remoteAddr : String) (auth : List Nat)
        (reqAddr : String) (hp : String × String),
      env.splitHostPort reqAddr = Except.ok hp →
      (Core.dispatchedAction env hp.1).1 = Core.Action.block →
      (∀ t, Core.TCPEvent.dialAttempt t ∉
          Core.handleTCP env remoteAddr auth reqAddr) ∧
      Core.TCPEvent.writeResponse false "blocked by ACL" ∈
        Core.handleTCP env remoteAddr auth reqAddr) ∧
    (∀ (env : Core.TCPEnv) (remoteAddr : String) (auth : List Nat)
        (reqAddr : String) (hp : String × String) (n : Nat),
      env.splitHostPort reqAddr = Except.ok hp →
      (Core.dispatchedAction env hp.1).1 = Core.Action.other n →
      (∀ t, Core.TCPEvent.dialAttempt t ∉
          Core.handleTCP env remoteAddr auth reqAddr) ∧
      Core.TCPEvent.writeResponse false "ACL error" ∈
        Core.handleTCP env remoteAddr auth reqAddr) ∧
    (∀ (env : Socks5.TCPEnv) (remoteAddr : String) (r : Socks5.Request),
      (Socks5.dispatchedAction env
          (Socks5.parseRequestAddress env.ipToString r).1
          (Socks5.parseRequestAddress env.ipToString r).2.1).1 =
        Core.Action.block →
      (∀ t, Socks5.Event.dialDirect t ∉ Socks5.handleTCP env remoteAddr r ∧
            Socks5.Event.dialProxy t ∉ Socks5.handleTCP env remoteAddr r) ∧
      Socks5.Event.reply Socks5.repHostUnreachable ∈
        Socks5.handleTCP env remoteAddr r) ∧
    (∀ (env : Socks5.TCPEnv) (remoteAddr : String) (r : Socks5.Request)
        (n : Nat),
      (Socks5.dispatchedAction env
          (Socks5.parseRequestAddress env.ipToString r).1
          (Socks5.parseRequestAddress env.ipToString r).2.1).1 =
        Core.Action.other n →
      (∀ t, Socks5.Event.dialDirect t ∉ Socks5.handleTCP env remoteAddr r ∧
            Socks5.Event.dialProxy t ∉ Socks5.handleTCP env remoteAddr r) ∧
      Socks5.Event.reply Socks5.repServerFailure ∈
        Socks5.handleTCP env remoteAddr r) := by
  refine ⟨?_, ?_, ?_, ?_⟩
  · intro env remoteAddr auth reqAddr hp hsplit hdisp
    rw [Core.handleTCP_eq env remoteAddr auth reqAddr hp hsplit, hdisp]
    constructor
    · intro t ht
      rcases hacl : env.acl with _ | f <;>
        simp [hacl, Core.dialAttempt_handleTCPAction] at ht
    · rcases hacl : env.acl with _ | f <;> simp [hacl, Core.handleTCPAction]
  · intro env remoteAddr auth reqAddr hp n hsplit hdisp
    rw [Core.handleTCP_eq env remoteAddr auth reqAddr hp hsplit, hdisp]
    constructor
    · intro t ht
      rcases hacl : env.acl with _ | f <;>
        simp [hacl, Core.dialAttempt_handleTCPAction] at ht
    · rcases hacl : env.acl with _ | f <;> simp [hacl, Core.handleTCPAction]
  · intro env remoteAddr r hdisp
    rw [Socks5.handleTCPTrace_eq env remoteAddr r, hdisp]
    constructor
    · intro t
      constructor <;> intro ht <;>
        rcases hacl : env.acl with _ | f <;>
        simp [hacl, Socks5.dialDirect_handleTCPAction,
          Socks5.dialProxy_handleTCPAction] at ht
    · rcases hacl : env.acl with _ | f <;>
        simp [hacl, Socks5.handleTCPAction]
  · intro env remoteAddr r n hdisp
    rw [Socks5.handleTCPTrace_eq env remoteAddr r, hdisp]
    constructor
    · intro t
      constructor <;> intro ht <;>
        rcases hacl : env.acl with _ | f <;>
        simp [hacl, Socks5.dialDirect_handleTCPAction,
          Socks5.dialProxy_handleTCPAction] at ht
    · rcases hacl : env.acl with _ | f <;>
        simp [hacl, Socks5.handleTCPAction]

/-- C7 witness: a blocked request and an unknown-action request at each
server. -/
theorem C7_witness :
    ((∀ t, Core.TCPEvent.dialAttempt t ∉
        Core.handleTCP coreEnvBlock "peer" [] "ads.example.com:80") ∧
      Core.TCPEvent.writeResponse false "blocked by ACL" ∈
        Core.handleTCP coreEnvBlock "peer" [] "ads.example.com:80") ∧
    ((∀ t, Core.TCPEvent.dialAttempt t ∉
        Core.handleTCP coreEnvOther "peer" [] "example.com:80") ∧
      Core.TCPEvent.writeResponse false "ACL error" ∈
        Core.handleTCP coreEnvOther "peer" [] "example.com:80") ∧
    ((∀ t, Socks5.Event.dialDirect t ∉
          Socks5.handleTCP socksEnvBlock "peer" socksReqPlain ∧
        Socks5.Event.dialProxy t ∉
          Socks5.handleTCP socksEnvBlock "peer" socksReqPlain) ∧
      Socks5.Event.reply Socks5.repHostUnreachable ∈
        Socks5.handleTCP socksEnvBlock "peer" socksReqPlain) ∧
    ((∀ t, Socks5.Event.dialDirect t ∉
          Socks5.handleTCP socksEnvOther "peer" socksReqPlain ∧
        Socks5.Event.dialProxy t ∉
          Socks5.handleTCP socksEnvOther "peer" socksReqPlain) ∧
      Socks5.Event.reply Socks5.repServerFailure ∈
        Socks5.handleTCP socksEnvOther "peer" socksReqPlain) :=
  ⟨C7_block_unknown_refused.1 coreEnvBlock "peer" [] "ads.example.com:80"
      ("ads.example.com", "80") rfl rfl,
   C7_block_unknown_refused.2.1 coreEnvOther "peer" [] "example.com:80"
      ("example.com", "80") 9 rfl rfl,
   C7_block_unknown_refused.2.2.1 socksEnvBlock "peer" socksReqPlain rfl,
   C7_block_unknown_refused.2.2.2 socksEnvOther "peer" socksReqPlain 9 rfl⟩

/-- A core TCP environment whose address split fails. -/
def coreEnvSplitFail : Core.TCPEnv where
  splitHostPort := fun _ => Except.error "missing port in address"
  parseIP := fun _ => none
  acl := none
  dial := fun _ => Except.ok ()
  packOKResult := true
  pipeResult := none

namespace Socks5

/-- The front-end's action switch never invokes the observed hook. -/
lemma countTCPRequest_action (env : TCPEnv) (addr port : String)
    (action : Core.Action) (arg : String) :
    countTCPRequest (handleTCPAction env addr port action arg).1 = 0 := by
  cases action with
  | direct =>
    unfold handleTCPAction handleTCPDial
    rcases env.dialTCP addr with e | v <;> simp [countTCPRequest]
  | proxy =>
    unfold handleTCPAction handleTCPDial
    rcases env.dialHy addr with e | v <;> simp [countTCPRequest]
  | block => simp [handleTCPAction, countTCPRequest]
  | hijack =>
    unfold handleTCPAction handleTCPDial
    rcases env.dialTCP (Core.joinHostPort arg port) with e | v <;>
      simp [countTCPRequest]
  | other n => simp [handleTCPAction, countTCPRequest]

/-- The front-end's action switch never invokes the finished hook
itself (it is invoked once by the deferred call). -/
lemma countTCPError_action (env : TCPEnv) (addr port : String)
    (action : Core.Action) (arg : String) :
    countTCPError (handleTCPAction env addr port action arg).1 = 0 := by
  cases action with
  | direct =>
    unfold handleTCPAction handleTCPDial
    rcases env.dialTCP addr with e | v <;> simp [countTCPError]
  | proxy =>
    unfold handleTCPAction handleTCPDial
    rcases env.dialHy addr with e | v <;> simp [countTCPError]
  | block => simp [handleTCPAction, countTCPError]
  | hijack =>
    unfold handleTCPAction handleTCPDial
    rcases env.dialTCP (Core.joinHostPort arg port) with e | v <;>
      simp [countTCPError]
  | other n => simp [handleTCPAction, countTCPError]

end Socks5

namespace Core

/-- Finished-hook count of the tunnel server's dial tail. -/
lemma countTCPError_handleTCPDial (env : TCPEnv) (remoteAddr : String)
    (auth : List Nat) (reqAddr target : String) :
    countTCPError (handleTCPDial env remoteAddr auth reqAddr target) =
      (match env.dial target with
       | Except.error _ => 1
       | Except.ok _ => if env.packOKResult then 1 else 0) := by
  unfold handleTCPDial
  rcases env.dial target with e | v
  · simp [countTCPError]
  · rcases hpk : env.packOKResult with _ | _ <;> simp [hpk, countTCPError]

/-- Finished-hook count of the tunnel server's action switch equals
`finishedHookCount`. -/
lemma countTCPError_handleTCPAction (env : TCPEnv) (remoteAddr : String)
    (auth : List Nat) (reqAddr port : String) (action : Action)
    (arg : String) :
    countTCPError (handleTCPAction env remoteAddr auth reqAddr port action arg) =
      finishedHookCount env reqAddr port action arg := by
  cases action with
  | direct => simp [handleTCPAction, finishedHookCount, countTCPError_handleTCPDial]
  | proxy => simp [handleTCPAction, finishedHookCount, countTCPError_handleTCPDial]
  | block => simp [handleTCPAction, finishedHookCount, countTCPError]
  | hijack => simp [handleTCPAction, finishedHookCount, countTCPError_handleTCPDial]
  | other n => simp [handleTCPAction, finishedHookCount, countTCPError]

/-- The tunnel server's action switch never invokes the observed
hook. -/
lemma countTCPRequest_handleTCPAction (env : TCPEnv) (remoteAddr : String)
    (auth : List Nat) (reqAddr port : String) (action : Action)
    (arg : String) :
    countTCPRequest
      (handleTCPAction env remoteAddr auth reqAddr port action arg) = 0 := by
  cases action with
  | direct =>
    unfold handleTCPAction handleTCPDial
    rcases env.dial reqAddr with e | v <;>
      [simp [countTCPRequest];
       rcases hpk : env.packOKResult with _ | _ <;> simp [hpk, countTCPRequest]]
  | proxy =>
    unfold handleTCPAction handleTCPDial
    rcases env.dial reqAddr with e | v <;>
      [simp [countTCPRequest];
       rcases hpk : env.packOKResult with _ | _ <;> simp [hpk, countTCPRequest]]
  | block => simp [handleTCPAction, countTCPRequest]
  | hijack =>
    unfold handleTCPAction handleTCPDial
    rcases env.dial (joinHostPort arg port) with e | v <;>
      [simp [countTCPRequest];
       rcases hpk : env.packOKResult with _ | _ <;> simp [hpk, countTCPRequest]]
  | other n => simp [handleTCPAction, countTCPRequest]

end Core

/-- C3 counterexample: at the tunnel server, a request the ACL engine
blocks invokes the observed hook once but the finished hook zero
times, refuting "the finished hook is invoked exactly once per request
... on every path including Block". -/
theorem C3_counterexample :
    Core.countTCPRequest
      (Core.handleTCP coreEnvBlock "peer" [] "ads.example.com:80") = 1 ∧
    Core.countTCPError
      (Core.handleTCP coreEnvBlock "peer" [] "ads.example.com:80") = 0 := by
  constructor <;> rfl

/-- C3 as amended: at the SOCKS front-end both hooks are invoked
exactly once per request on every path. At the tunnel server, the
observed hook is invoked exactly once whenever the requested address
splits, and zero times on address-parse failure; the finished hook is
invoked exactly once on the address-parse-failure path, and on
Direct/Proxy/Hijack paths exactly once when the dial fails or the
success response write succeeds — but zero times on Block paths,
unknown-action paths, and dial-success paths where writing the success
response fails. -/
theorem C3_amended_hook_counts :
    (∀ (env : Socks5.TCPEnv) (remoteAddr : String) (r : Socks5.Request),
      Socks5.countTCPRequest (Socks5.handleTCP env remoteAddr r) = 1 ∧
      Socks5.countTCPError (Socks5.handleTCP env remoteAddr r) = 1) ∧
    (∀ (env : Core.TCPEnv) (remoteAddr : String) (auth : List Nat)
        (reqAddr e : String),
      env.splitHostPort reqAddr = Except.error e →
      Core.countTCPRequest (Core.handleTCP env remoteAddr auth reqAddr) = 0 ∧
      Core.countTCPError (Core.handleTCP env remoteAddr auth reqAddr) = 1) ∧
    (∀ (env : Core.TCPEnv) (remoteAddr : String) (auth : List Nat)
        (reqAddr : String) (hp : String × String),
      env.splitHostPort reqAddr = Except.ok hp →
      Core.countTCPRequest (Core.handleTCP env remoteAddr auth reqAddr) = 1 ∧
      Core.countTCPError (Core.handleTCP env remoteAddr auth reqAddr) =
        Core.finishedHookCount env reqAddr hp.2
          (Core.dispatchedAction env hp.1).1
          (Core.dispatchedAction env hp.1).2) := by
  refine ⟨?_, ?_, ?_⟩
  · intro env remoteAddr r
    rw [Socks5.handleTCPTrace_eq env remoteAddr r]
    have hreq := Socks5.countTCPRequest_action env
      (Socks5.parseRequestAddress env.ipToString r).2.2.2
      (Socks5.parseRequestAddress env.ipToString r).2.2.1
      (Socks5.dispatchedAction env (Socks5.parseRequestAddress env.ipToString r).1
        (Socks5.parseRequestAddress env.ipToString r).2.1).1
      (Socks5.dispatchedAction env (Socks5.parseRequestAddress env.ipToString r).1
        (Socks5.parseRequestAddress env.ipToString r).2.1).2
    have herr := Socks5.countTCPError_action env
      (Socks5.parseRequestAddress env.ipToString r).2.2.2
      (Socks5.parseRequestAddress env.ipToString r).2.2.1
      (Socks5.dispatchedAction env (Socks5.parseRequestAddress env.ipToString r).1
        (Socks5.parseRequestAddress env.ipToString r).2.1).1
      (Socks5.dispatchedAction env (Socks5.parseRequestAddress env.ipToString r).1
        (Socks5.parseRequestAddress env.ipToString r).2.1).2
    simp only [Socks5.countTCPRequest] at hreq
    simp only [Socks5.countTCPError] at herr
    simp only [Socks5.countTCPRequest, Socks5.countTCPError]
    rcases hacl : env.acl with _ | f <;>
      simp [hacl, List.countP_append, List.countP_cons, hreq, herr]
  · intro env remoteAddr auth reqAddr e hsplit
    unfold Core.handleTCP
    rw [hsplit]
    constructor <;> simp [Core.countTCPRequest, Core.countTCPError]
  · intro env remoteAddr auth reqAddr hp hsplit
    rw [Core.handleTCP_eq env remoteAddr auth reqAddr hp hsplit]
    have hreq := Core.countTCPRequest_handleTCPAction env remoteAddr auth
      reqAddr hp.2 (Core.dispatchedAction env hp.1).1
      (Core.dispatchedAction env hp.1).2
    have herr := Core.countTCPError_handleTCPAction env remoteAddr auth
      reqAddr hp.2 (Core.dispatchedAction env hp.1).1
      (Core.dispatchedAction env hp.1).2
    constructor
    · unfold Core.countTCPRequest at hreq ⊢
      rcases hacl : env.acl with _ | f <;>
        simp [hacl, List.countP_append, List.countP_cons, hreq]
    · rw [← herr]
      unfold Core.countTCPError
      rcases hacl : env.acl with _ | f <;>
        simp [hacl, List.countP_append, List.countP_cons]

/-- C3 amended witness: a plain request at the front-end, a
split-failure and a plain request at the tunnel server. -/
theorem C3_amended_witness :
    (Socks5.countTCPRequest
        (Socks5.handleTCP socksEnvPlain "peer" socksReqPlain) = 1 ∧
      Socks5.countTCPError
        (Socks5.handleTCP socksEnvPlain "peer" socksReqPlain) = 1) ∧
    (Core.countTCPRequest
        (Core.handleTCP coreEnvSplitFail "peer" [] "bad") = 0 ∧
      Core.countTCPError
        (Core.handleTCP coreEnvSplitFail "peer" [] "bad") = 1) ∧
    (Core.countTCPRequest
        (Core.handleTCP coreEnvPlain "peer" [] "example.com:80") = 1 ∧
      Core.countTCPError
        (Core.handleTCP coreEnvPlain "peer" [] "example.com:80") =
        Core.finishedHookCount coreEnvPlain "example.com:80"
          ("example.com", "80").2
          (Core.dispatchedAction coreEnvPlain ("example.com", "80").1).1
          (Core.dispatchedAction coreEnvPlain ("example.com", "80").1).2) :=
  ⟨C3_amended_hook_counts.1 socksEnvPlain "peer" socksReqPlain,
   C3_amended_hook_counts.2.1 coreEnvSplitFail "peer" []
     "bad" "missing port in address" rfl,
   C3_amended_hook_counts.2.2 coreEnvPlain "peer" [] "example.com:80"
     ("example.com", "80") rfl⟩

namespace Socks5

/-- `nonemptyChunks` over a cons. -/
lemma nonemptyChunks_cons (hd : List Nat × Option String)
    (tl : List (List Nat × Option String)) :
    nonemptyChunks (hd :: tl) =
      if hd.1.length > 0 then hd.1 :: nonemptyChunks tl
      else nonemptyChunks tl := by
  by_cases h : hd.1.length > 0 <;>
    simp [nonemptyChunks, List.filterMap_cons, h]

/-- Running the copy loop over a clean script segment (no read errors,
all writes succeeding) hands every nonempty chunk of the segment to
`Write`, in order, and continues with the rest of the script. -/
lemma pipeDirAux_cons (writeErr : Nat → Option String)
    (r : List Nat × Option String) (rest : List (List Nat × Option String))
    (i : Nat) :
    pipeDirAux writeErr (r :: rest) i =
      if r.1.length > 0 then
        match writeErr i with
        | some e => ([r.1], some e)
        | none =>
          match r.2 with
          | some e => ([r.1], some e)
          | none =>
            let p := pipeDirAux writeErr rest (i + 1)
            (r.1 :: p.1, p.2)
      else
        match r.2 with
        | some e => ([], some e)
        | none => pipeDirAux writeErr rest i := rfl

/-- Running the copy loop over a clean script segment (no read errors,
all writes succeeding) hands every nonempty chunk of the segment to
`Write`, in order, and continues with the rest of the script. -/
lemma pipeDirAux_clean (writeErr : Nat → Option String)
    (pre rest : List (List Nat × Option String)) (i : Nat)
    (hpre : ∀ p ∈ pre, p.2 = none)
    (hw : ∀ j, i ≤ j → j < i + (nonemptyChunks pre).length →
      writeErr j = none) :
    pipeDirAux writeErr (pre ++ rest) i =
      (nonemptyChunks pre ++
        (pipeDirAux writeErr rest (i + (nonemptyChunks pre).length)).1,
       (pipeDirAux writeErr rest (i + (nonemptyChunks pre).length)).2) := by
  induction pre generalizing i with
  | nil => simp [nonemptyChunks]
  | cons hd tl ih =>
    have hhd : hd.2 = none := hpre hd (by simp)
    rcases Nat.eq_zero_or_pos hd.1.length with hlen | hlen
    · have hnc : nonemptyChunks (hd :: tl) = nonemptyChunks tl := by
        rw [nonemptyChunks_cons, if_neg (by omega)]
      rw [List.cons_append, pipeDirAux_cons, if_neg (by omega), hhd, hnc]
      show pipeDirAux writeErr (tl ++ rest) i = _
      exact ih i (fun p hp => hpre p (List.mem_cons_of_mem hd hp))
        (fun j h1 h2 => hw j h1 (by rw [hnc]; exact h2))
    · have hnc : nonemptyChunks (hd :: tl) = hd.1 :: nonemptyChunks tl := by
        rw [nonemptyChunks_cons, if_pos hlen]
      have hw0 : writeErr i = none := by
        refine hw i (le_refl i) ?_
        rw [hnc]
        simp
      rw [List.cons_append, pipeDirAux_cons, if_pos hlen, hw0, hhd, hnc]
      show (hd.1 :: (pipeDirAux writeErr (tl ++ rest) (i + 1)).1,
            (pipeDirAux writeErr (tl ++ rest) (i + 1)).2) = _
      have hidx : i + (hd.1 :: nonemptyChunks tl).length =
          i + 1 + (nonemptyChunks tl).length := by
        simp only [List.length_cons]
        omega
      rw [hidx, ih (i + 1) (fun p hp => hpre p (List.mem_cons_of_mem hd hp))
        (fun j h1 h2 => hw j (by omega)
          (by rw [hnc]; simp only [List.length_cons]; omega))]
      simp

end Socks5

/-- C8: in a `pipePair` copy direction, when a read returns a nonempty
chunk together with an error — after a clean run (no earlier read
errors, all earlier writes succeeding) — that chunk is handed to the
opposite endpoint's `Write` (it is the last chunk written) before any
error is surfaced, and the relay's result is the first error produced:
the write error if writing that chunk fails, otherwise the read
error. -/
theorem C8_no_byte_loss (w1 w2 : Nat → Option String)
    (reads2 pre rest : List (List Nat × Option String))
    (chunk : List Nat) (e : String)
    (hchunk : chunk.length > 0)
    (hpre : ∀ p ∈ pre, p.2 = none)
    (hw : ∀ j, j < (Socks5.nonemptyChunks pre).length → w1 j = none) :
    (Socks5.pipeDir w1 (pre ++ (chunk, some e) :: rest)).1 =
      Socks5.nonemptyChunks pre ++ [chunk] ∧
    Socks5.pipePair (pre ++ (chunk, some e) :: rest) reads2 w1 w2 true =
      some ((w1 (Socks5.nonemptyChunks pre).length).getD e) := by
  have h := Socks5.pipeDirAux_clean w1 pre ((chunk, some e) :: rest) 0 hpre
    (by intro j h1 h2; exact hw j (by omega))
  have htail : Socks5.pipeDirAux w1 ((chunk, some e) :: rest)
      (0 + (Socks5.nonemptyChunks pre).length) =
      ([chunk],
       some ((w1 (Socks5.nonemptyChunks pre).length).getD e)) := by
    unfold Socks5.pipeDirAux
    rw [if_pos hchunk]
    rcases hw1 : w1 (0 + (Socks5.nonemptyChunks pre).length) with _ | wv <;>
      simp_all
  unfold Socks5.pipePair Socks5.pipeDir
  rw [if_pos rfl, h, htail]
  simp

/-- C8 witness: one clean read of two bytes, then a read returning one
byte together with an end-of-stream error; both chunks are written and
the read error is surfaced. -/
theorem C8_witness :
    (Socks5.pipeDir (fun _ => none)
        ([([1, 2], none)] ++ [([3], some "EOF")])).1 =
      Socks5.nonemptyChunks [([1, 2], none)] ++ [[3]] ∧
    Socks5.pipePair ([([1, 2], none)] ++ [([3], some "EOF")]) []
        (fun _ => none) (fun _ => none) true =
      some (((fun (_ : Nat) => (none : Option String))
        (Socks5.nonemptyChunks [([1, 2], none)]).length).getD "EOF") :=
  C8_no_byte_loss (fun _ => none) (fun _ => none) [] [([1, 2], none)] []
    [3] "EOF" (by decide) (by decide) (by intro j hj; rfl)

/-- C9: in SOCKS method negotiation (with the reply writes succeeding),
when none of the client's offered methods matches the configured
method the server writes the unsupported-methods reply and then still
writes the chosen-method reply advertising the configured method, in
that order; when a method matches, only the chosen-method reply is
written; in either case the chosen-method reply is written. -/
theorem C9_two_reply_negotiation (method : Nat) (env : Socks5.NegEnv)
    (methods : List Nat) (hread : env.readMethods = some methods)
    (hw1 : env.writeUnsupportedOK = true) (hw2 : env.writeChosenOK = true) :
    (methods.contains method = false →
      Socks5.negReplies (Socks5.negotiate method env).1 =
        [Socks5.methodUnsupportAll, method]) ∧
    (methods.contains method = true →
      Socks5.negReplies (Socks5.negotiate method env).1 = [method]) ∧
    Socks5.Event.negReply method ∈ (Socks5.negotiate method env).1 := by
  unfold Socks5.negotiate
  rw [hread]
  rcases hc : methods.contains method with _ | _ <;>
    simp only [hc, hw1, hw2, Bool.not_true, Bool.not_false, Bool.false_eq_true,
      not_false_eq_true, not_true_eq_false, if_true, if_false, ite_true,
      ite_false, Bool.true_eq_false, and_true, true_and] <;>
    refine ⟨?_, ?_, ?_⟩ <;> (try intro hx) <;>
    first
    | (split
       next hm =>
         subst hm
         rcases env.readUserPass with _ | up
         · simp [Socks5.negReplies]
         · rcases har : env.authResult up.1 up.2 with _ | _ <;>
             simp [har, Socks5.negReplies]
       next hm => simp [Socks5.negReplies])
    | simp_all

/-- C9 witness: the client offers methods 5 and 1, the server is
configured for no-auth (0): both replies are written, unsupported
first. -/
theorem C9_witness :
    (([5, 1] : List Nat).contains Socks5.methodNone = false →
      Socks5.negReplies (Socks5.negotiate Socks5.methodNone
        ⟨some [5, 1], true, true, none, fun _ _ => true, true⟩).1 =
        [Socks5.methodUnsupportAll, Socks5.methodNone]) ∧
    (([5, 1] : List Nat).contains Socks5.methodNone = true →
      Socks5.negReplies (Socks5.negotiate Socks5.methodNone
        ⟨some [5, 1], true, true, none, fun _ _ => true, true⟩).1 =
        [Socks5.methodNone]) ∧
    Socks5.Event.negReply Socks5.methodNone ∈
      (Socks5.negotiate Socks5.methodNone
        ⟨some [5, 1], true, true, none, fun _ _ => true, true⟩).1 :=
  C9_two_reply_negotiation Socks5.methodNone
    ⟨some [5, 1], true, true, none, fun _ _ => true, true⟩ [5, 1] rfl rfl rfl

/-- A core TCP environment where the outbound dial succeeds but writing
the `OK:true` stream response fails. -/
def coreEnvPackFail : Core.TCPEnv where
  splitHostPort := fun _ => Except.ok ("example.com", "80")
  parseIP := fun _ => none
  acl := none
  dial := fun _ => Except.ok ()
  packOKResult := false
  pipeResult := none

namespace Core

/-- With a failed `OK:true` response write, the dial tail never starts
the relay. -/
lemma pipe2Way_handleTCPDial (env : TCPEnv) (remoteAddr : String)
    (auth : List Nat) (reqAddr target : String)
    (hpack : env.packOKResult = false) :
    TCPEvent.pipe2Way ∉ handleTCPDial env remoteAddr auth reqAddr target := by
  unfold handleTCPDial
  rcases env.dial target with e | v <;> simp [hpack]

/-- With a failed `OK:true` response write, the action switch never
starts the relay. -/
lemma pipe2Way_handleTCPAction (env : TCPEnv) (remoteAddr : String)
    (auth : List Nat) (reqAddr port : String) (action : Action) (arg : String)
    (hpack : env.packOKResult = false) :
    TCPEvent.pipe2Way ∉
      handleTCPAction env remoteAddr auth reqAddr port action arg := by
  cases action with
  | direct =>
    simp only [handleTCPAction]
    exact pipe2Way_handleTCPDial env remoteAddr auth reqAddr reqAddr hpack
  | proxy =>
    simp only [handleTCPAction]
    exact pipe2Way_handleTCPDial env remoteAddr auth reqAddr reqAddr hpack
  | block => simp [handleTCPAction]
  | hijack =>
    simp only [handleTCPAction]
    exact pipe2Way_handleTCPDial env remoteAddr auth reqAddr
      (joinHostPort arg port) hpack
  | other n => simp [handleTCPAction]

/-- With a failed `OK:true` response write, `handleTCP` never starts
the relay. -/
lemma pipe2Way_handleTCP (env : TCPEnv) (remoteAddr : String)
    (auth : List Nat) (reqAddr : String)
    (hpack : env.packOKResult = false) :
    TCPEvent.pipe2Way ∉ handleTCP env remoteAddr auth reqAddr := by
  rcases hsplit : env.splitHostPort reqAddr with e | hp
  · unfold handleTCP
    rw [hsplit]
    simp
  · rw [handleTCP_eq env remoteAddr auth reqAddr hp hsplit]
    have hna := pipe2Way_handleTCPAction env remoteAddr auth reqAddr hp.2
      (dispatchedAction env hp.1).1 (dispatchedAction env hp.1).2 hpack
    rcases hacl : env.acl with _ | f <;> simp [hacl, hna]

/-- A `writeResponse true` in the dial tail happens only after a
successful dial of the tail's target, directly following the dial. -/
lemma writeResponseTrue_handleTCPDial (env : TCPEnv) (remoteAddr : String)
    (auth : List Nat) (reqAddr target m : String) :
    TCPEvent.writeResponse true m ∈
        handleTCPDial env remoteAddr auth reqAddr target →
    env.dial target = Except.ok () ∧
      List.Sublist [TCPEvent.dialAttempt target, TCPEvent.writeResponse true m]
        (handleTCPDial env remoteAddr auth reqAddr target) := by
  unfold handleTCPDial
  rcases hd : env.dial target with er | u
  · intro h
    simp at h
  · cases u
    rcases hpk : env.packOKResult with _ | _ <;>
      simp only [hpk, Bool.false_eq_true, if_false, if_true, ite_true,
        ite_false] <;>
      intro h <;> simp at h <;> subst h <;>
      exact ⟨by trivial, List.Sublist.cons₂ _ (List.Sublist.cons₂ _
        (List.nil_sublist _))⟩

/-- A `writeResponse true` in the action switch happens only after a
successful dial. -/
lemma writeResponseTrue_handleTCPAction (env : TCPEnv) (remoteAddr : String)
    (auth : List Nat) (reqAddr port : String) (action : Action)
    (arg m : String) :
    TCPEvent.writeResponse true m ∈
        handleTCPAction env remoteAddr auth reqAddr port action arg →
    ∃ target, env.dial target = Except.ok () ∧
      List.Sublist [TCPEvent.dialAttempt target, TCPEvent.writeResponse true m]
        (handleTCPAction env remoteAddr auth reqAddr port action arg) := by
  cases action with
  | direct =>
    intro h
    obtain ⟨h1, h2⟩ :=
      writeResponseTrue_handleTCPDial env remoteAddr auth reqAddr reqAddr m h
    exact ⟨reqAddr, h1, h2⟩
  | proxy =>
    intro h
    obtain ⟨h1, h2⟩ :=
      writeResponseTrue_handleTCPDial env remoteAddr auth reqAddr reqAddr m h
    exact ⟨reqAddr, h1, h2⟩
  | block =>
    intro h
    simp [handleTCPAction] at h
  | hijack =>
    intro h
    obtain ⟨h1, h2⟩ := writeResponseTrue_handleTCPDial env remoteAddr auth
      reqAddr (joinHostPort arg port) m h
    exact ⟨joinHostPort arg port, h1, h2⟩
  | other n =>
    intro h
    simp [handleTCPAction] at h

end Core

/-- C10: at the tunnel server, if the outbound dial succeeds but
writing the `OK:true` stream response fails, the dial tail consists of
exactly the dial, the response-write attempt, and the (deferred) close
of the dialed connection — the relay is never started; with a failed
response write no relay is started on any path of the stream handler;
the request stream is closed last on every path; and every `OK:true`
response in a request trace is directly preceded by a dial that
succeeded. -/
theorem C10_ok_write_fail_no_relay :
    (∀ (env : Core.TCPEnv) (remoteAddr : String) (auth : List Nat)
        (reqAddr target : String),
      env.dial target = Except.ok () → env.packOKResult = false →
      Core.handleTCPDial env remoteAddr auth reqAddr target =
        [Core.TCPEvent.dialAttempt target,
         Core.TCPEvent.writeResponse true "",
         Core.TCPEvent.closeConn]) ∧
    (∀ (env : Core.TCPEnv) (unpackReq : Option (Bool × String))
        (remoteAddr : String) (auth : List Nat),
      env.packOKResult = false →
      Core.TCPEvent.pipe2Way ∉
        Core.handleStream env unpackReq remoteAddr auth) ∧
    (∀ (env : Core.TCPEnv) (unpackReq : Option (Bool × String))
        (remoteAddr : String) (auth : List Nat),
      (Core.handleStream env unpackReq remoteAddr auth).getLast? =
        some Core.TCPEvent.closeStream) ∧
    (∀ (env : Core.TCPEnv) (remoteAddr : String) (auth : List Nat)
        (reqAddr m : String),
      Core.TCPEvent.writeResponse true m ∈
          Core.handleTCP env remoteAddr auth reqAddr →
      ∃ target, env.dial target = Except.ok () ∧
        List.Sublist [Core.TCPEvent.dialAttempt target,
          Core.TCPEvent.writeResponse true m]
          (Core.handleTCP env remoteAddr auth reqAddr)) := by
  refine ⟨?_, ?_, ?_, ?_⟩
  · intro env remoteAddr auth reqAddr target hdial hpack
    unfold Core.handleTCPDial
    rw [hdial]
    simp [hpack]
  · intro env unpackReq remoteAddr auth hpack
    unfold Core.handleStream
    rcases unpackReq with _ | req
    · simp
    · rcases hud : req.1 with _ | _
      · simp [hud, Core.pipe2Way_handleTCP env remoteAddr auth req.2 hpack]
      · simp [hud]
  · intro env unpackReq remoteAddr auth
    unfold Core.handleStream
    exact List.getLast?_concat _
  · intro env remoteAddr auth reqAddr m hmem
    rcases hsplit : env.splitHostPort reqAddr with e | hp
    · unfold Core.handleTCP at hmem
      rw [hsplit] at hmem
      simp at hmem
    · rw [Core.handleTCP_eq env remoteAddr auth reqAddr hp hsplit] at hmem ⊢
      have hb : Core.TCPEvent.writeResponse true m ∈
          Core.handleTCPAction env remoteAddr auth reqAddr hp.2
            (Core.dispatchedAction env hp.1).1
            (Core.dispatchedAction env hp.1).2 := by
        rcases hacl : env.acl with _ | f <;> simp [hacl] at hmem <;>
          exact hmem
      obtain ⟨target, h1, h2⟩ := Core.writeResponseTrue_handleTCPAction env
        remoteAddr auth reqAddr hp.2 (Core.dispatchedAction env hp.1).1
        (Core.dispatchedAction env hp.1).2 m hb
      refine ⟨target, h1, ?_⟩
      exact h2.trans ((List.Sublist.cons _ (List.Sublist.refl _)).trans
        (List.sublist_append_right _ _))

/-- C10 witness: a dial that succeeds with a failing response write
(no relay, connection closed), stream closed last, and an `OK:true`
response preceded by its successful dial on the plain path. -/
theorem C10_witness :
    (Core.handleTCPDial coreEnvPackFail "peer" [] "example.com:80"
        "example.com:80" =
      [Core.TCPEvent.dialAttempt "example.com:80",
       Core.TCPEvent.writeResponse true "",
       Core.TCPEvent.closeConn]) ∧
    (Core.TCPEvent.pipe2Way ∉
      Core.handleStream coreEnvPackFail (some (false, "example.com:80"))
        "peer" []) ∧
    ((Core.handleStream coreEnvPlain (some (false, "example.com:80"))
        "peer" []).getLast? = some Core.TCPEvent.closeStream) ∧
    (∃ target, coreEnvPlain.dial target = Except.ok () ∧
      List.Sublist [Core.TCPEvent.dialAttempt target,
        Core.TCPEvent.writeResponse true ""]
        (Core.handleTCP coreEnvPlain "peer" [] "example.com:80")) :=
  ⟨C10_ok_write_fail_no_relay.1 coreEnvPackFail "peer" [] "example.com:80"
     "example.com:80" rfl rfl,
   C10_ok_write_fail_no_relay.2.1 coreEnvPackFail
     (some (false, "example.com:80")) "peer" [] rfl,
   C10_ok_write_fail_no_relay.2.2.1 coreEnvPlain
     (some (false, "example.com:80")) "peer" [],
   C10_ok_write_fail_no_relay.2.2.2 coreEnvPlain "peer" [] "example.com:80"
     "" (by decide)⟩
